import Mathlib

/-!
Verification of the HumanlikeAI realtime conversational session engine.

This file gives a shallow embedding in Lean 4 of the parts of the backend
that the specification's claims are about:

* `app/services/emotion_model.py` — Russell-circumplex affect model
  (`EmotionState`, `EMOTION_MAP`, `_clamp`, `_intensity_from_arousal`,
  `_nearest_label`, `_apply_mbti_modifiers`, `label_to_circumplex`,
  `_inertia_weights`, `apply_inertia`);
* `app/services/emotion.py` — keyword heuristic classifier
  (`EMOTION_KEYWORDS`, `RELATIONSHIP_EMOTION_BIAS`,
  `classify_emotion_heuristic`, `classify_to_circumplex`);
* `app/services/gemini_live.py` — the adapter's `reconnect` retry loop;
* `app/api/ws_handler.py` — the orchestrator's session seeding
  (`RELATIONSHIP_DEFAULT_EMOTIONS`), the output-transcription handler, the
  turn-boundary reconnect path and the emotional-burst rule;
* `app/api/message_routes.py` — the per-(character,user) proactive-message
  lock discipline.

Modelling conventions: Python floats are modelled as exact rationals `ℚ`
(the constants in the source are short decimals); `round(x, 3)` is modelled
as round-half-to-even on thousandths (`pyRound3`); Euclidean distances are
compared through their squares, which preserves every strict comparison of
nonnegative distances; Python strings are Lean `String`s, with ASCII
lowercasing/uppercasing (the lexicon is ASCII-lowercase plus CJK characters,
which both `str.lower` and our map leave unchanged).
-/

/-! ## Python primitive helpers -/

/-- Python `max(lo, min(hi, value))` — the source's `_clamp`. -/
def _clamp (value lo hi : ℚ) : ℚ := max lo (min hi value)

/-- Python's `round(q, 3)`: round to a multiple of 1/1000, ties to even. -/
def pyRound3 (q : ℚ) : ℚ :=
  let r := q * 1000
  let n : ℤ := ⌊r⌋
  let k : ℤ :=
    if r - n < 1/2 then n
    else if 1/2 < r - n then n + 1
    else if n % 2 = 0 then n else n + 1
  (k : ℚ) / 1000

/-- ASCII lowercasing of one character (Python `str.lower` restricted to
the character sets appearing in this code base). -/
def pyCharLower (c : Char) : Char :=
  if 'A' ≤ c ∧ c ≤ 'Z' then Char.ofNat (c.toNat + 32) else c

/-- ASCII uppercasing of one character (Python `str.upper`). -/
def pyCharUpper (c : Char) : Char :=
  if 'a' ≤ c ∧ c ≤ 'z' then Char.ofNat (c.toNat - 32) else c

/-- Python `text.lower()`. -/
def pyLower (s : String) : String := ⟨s.data.map pyCharLower⟩

/-- Python `text.upper()`. -/
def pyUpper (s : String) : String := ⟨s.data.map pyCharUpper⟩

/-- Is `pre` a prefix of `l`? (Boolean, structural.) -/
def isPrefixList : List Char → List Char → Bool
  | [], _ => true
  | _ :: _, [] => false
  | a :: as, b :: bs => a = b && isPrefixList as bs

/-- Does `needle` occur as a contiguous substring of `hay`?
Python's `needle in hay` on strings. -/
def containsSubList (needle : List Char) : List Char → Bool
  | [] => needle.isEmpty
  | c :: rest => isPrefixList needle (c :: rest) || containsSubList needle rest

/-- Python `needle in hay` for strings. -/
def pyInStr (needle hay : String) : Bool := containsSubList needle.data hay.data

/-- Python whitespace test for `str.strip()` (ASCII whitespace; the
transcripts in the claims use ASCII whitespace only). -/
def pyIsSpace (c : Char) : Bool :=
  c = ' ' || c = '\t' || c = '\n' || c = '\x0b' || c = '\x0c' || c = '\r'

/-- Python `text.strip()`. -/
def pyStrip (s : String) : String :=
  ⟨((s.data.dropWhile pyIsSpace).reverse.dropWhile pyIsSpace).reverse⟩

/-! ## `app/services/emotion_model.py` -/

/-- A point in Russell's circumplex model (`EmotionState` dataclass). -/
structure EmotionState where
  valence : ℚ
  arousal : ℚ
  label : String
  intensity : String
deriving DecidableEq, Repr

/-- Canonical circumplex coordinates for each emotion label, in the
source's insertion order (`EMOTION_MAP`). -/
def EMOTION_MAP : List (String × ℚ × ℚ) :=
  [("excited", 0.8, 0.9),
   ("happy", 0.7, 0.5),
   ("loving", 0.8, 0.4),
   ("neutral", 0.0, 0.2),
   ("thinking", 0.1, 0.4),
   ("surprised", 0.3, 0.85),
   ("jealous", -0.5, 0.75),
   ("shy", 0.3, 0.35),
   ("anxious", -0.4, 0.8),
   ("sad", -0.7, 0.2),
   ("angry", -0.8, 0.9),
   ("disappointed", -0.6, 0.35),
   ("frustrated", -0.5, 0.65),
   ("proud", 0.7, 0.65),
   ("grateful", 0.65, 0.25),
   ("bored", -0.3, 0.1),
   ("curious", 0.3, 0.55),
   ("embarrassed", -0.3, 0.55),
   ("playful", 0.55, 0.75),
   ("lonely", -0.55, 0.15),
   ("confused", -0.15, 0.45)]

/-- The 21 emotion labels (`EMOTION_LABELS = list(EMOTION_MAP.keys())`). -/
def EMOTION_LABELS : List String := EMOTION_MAP.map Prod.fst

/-- `INTENSITY_LEVELS = ("low", "mid", "high")`. -/
def INTENSITY_LEVELS : List String := ["low", "mid", "high"]

/-- `_intensity_from_arousal`. -/
def _intensity_from_arousal (arousal : ℚ) : String :=
  if arousal < 0.35 then "low"
  else if arousal ≤ 0.65 then "mid"
  else "high"

/-- Squared Euclidean distance; `math.hypot(dv, da)` is compared only, and
squaring preserves strict comparison of nonnegative distances. -/
def distSq (v a v2 a2 : ℚ) : ℚ := (v - v2) ^ 2 + (a - a2) ^ 2

/-- The loop of `_nearest_label`: `best_dist = none` models the initial
`float("inf")`; an entry strictly closer than the best so far replaces it,
so the first-declared label wins ties. -/
def nearestGo (v a : ℚ) : String → Option ℚ → List (String × ℚ × ℚ) → String
  | best, _, [] => best
  | _, none, (l, vl, al) :: rest =>
      nearestGo v a l (some (distSq v a vl al)) rest
  | best, some bd, (l, vl, al) :: rest =>
      if distSq v a vl al < bd then nearestGo v a l (some (distSq v a vl al)) rest
      else nearestGo v a best (some bd) rest

/-- `_nearest_label`: label of the table entry closest to `(v, a)`. -/
def _nearest_label (v a : ℚ) : String := nearestGo v a "neutral" none EMOTION_MAP

/-- Association-list lookup used for `EMOTION_MAP.get` and the other
string-keyed static tables. -/
def lookupTable {α : Type} : List (String × α) → String → Option α
  | [], _ => none
  | (k, v) :: rest, key => if k = key then some v else lookupTable rest key

/-- `_apply_mbti_modifiers`: personality modulation of raw coordinates.
`None` or a string shorter than 4 characters skips the step (`not mbti or
len(mbti) < 4`; the empty string is also shorter than 4). -/
def _apply_mbti_modifiers (valence arousal : ℚ) (mbti : Option String) : ℚ × ℚ :=
  match mbti with
  | none => (valence, arousal)
  | some s =>
    if s.length < 4 then (valence, arousal)
    else
      match (pyUpper s).data with
      | c0 :: _ :: c2 :: _ =>
        let arousal1 := if c0 = 'E' then arousal * 1.15
                        else if c0 = 'I' then arousal * 0.85 else arousal
        let valence1 := if c2 = 'F' then valence * 1.20
                        else if c2 = 'T' then valence * 0.80 else valence
        (_clamp valence1 (-1) 1, _clamp arousal1 0 1)
      | _ => (valence, arousal)

/-- `label_to_circumplex`: label → canonical point → MBTI modulation →
re-label by nearest neighbour → intensity, coordinates rounded to 3
decimals.  Unknown labels fall back to `EMOTION_MAP["neutral"] = (0, 0.2)`. -/
def label_to_circumplex (label : String) (mbti : Option String := none) : EmotionState :=
  let p := (lookupTable EMOTION_MAP label).getD (0, 0.2)
  let m := _apply_mbti_modifiers p.1 p.2 mbti
  { valence := pyRound3 m.1
    arousal := pyRound3 m.2
    label := _nearest_label m.1 m.2
    intensity := _intensity_from_arousal m.2 }

/-- `_inertia_weights`: blending weights (prev, new). -/
def _inertia_weights (prev : EmotionState) (familiarity_level : ℤ) : ℚ × ℚ :=
  if prev.label = "neutral" then (0.3, 0.7)
  else if familiarity_level ≥ 8 then (0.35, 0.65)
  else if familiarity_level ≥ 5 then (0.50, 0.50)
  else (0.65, 0.35)

/-- `apply_inertia`: blend `new` toward `prev`, clamp, round, re-label,
re-intensity. -/
def apply_inertia (prev new : EmotionState) (familiarity_level : ℤ := 5) : EmotionState :=
  let w := _inertia_weights prev familiarity_level
  let valence := _clamp (prev.valence * w.1 + new.valence * w.2) (-1) 1
  let arousal := _clamp (prev.arousal * w.1 + new.arousal * w.2) 0 1
  { valence := pyRound3 valence
    arousal := pyRound3 arousal
    label := _nearest_label valence arousal
    intensity := _intensity_from_arousal arousal }

/-! ## `app/services/emotion.py` — keyword heuristic -/

/-- The curated bilingual keyword lexicon (`EMOTION_KEYWORDS`), in the
source's insertion order. -/
def EMOTION_KEYWORDS : List (String × List String) :=
  [("happy",
    ["haha", "wonderful", "great", "glad", "awesome",
     "amazing", "yay", "fantastic", "brilliant", "delighted", "fun",
     "joy", "happy", "laugh", "smile", "cool", "sweet", "nice",
     "开心", "高兴", "哈哈", "不错", "棒", "太好了", "好开心"]),
   ("excited",
    ["excited", "wow", "incredible", "omg", "can\x27t wait", "thrilled",
     "pumped", "stoked", "unbelievable", "insane", "let\x27s go",
     "太棒了", "激动", "兴奋", "天啊", "厉害", "震惊"]),
   ("sad",
    ["sorry", "unfortunately", "sad", "miss", "lost", "difficult",
     "tough", "heartbreaking", "regret", "painful",
     "grief", "cry", "tears",
     "难过", "伤心", "可惜", "遗憾", "想念", "心疼", "委屈"]),
   ("angry",
    ["unfair", "annoyed", "upset", "furious", "angry",
     "outrageous", "ridiculous", "unacceptable", "terrible", "hate",
     "生气", "烦", "讨厌", "气死", "受不了", "过分"]),
   ("anxious",
    ["worried", "nervous", "anxious", "scared", "afraid", "stress",
     "uneasy", "concerned", "panic", "overwhelmed", "tense",
     "担心", "紧张", "焦虑", "害怕", "不安", "压力"]),
   ("loving",
    ["love", "adore", "cherish", "care about", "precious",
     "sweetheart", "darling", "dear", "miss you", "warm",
     "affection", "tender", "hug",
     "喜欢你", "爱你", "想你", "在乎你", "心疼你", "亲爱的", "宝贝"]),
   ("surprised",
    ["really", "no way", "what", "seriously", "unexpected",
     "didn\x27t expect", "oh my", "shocking", "whoa",
     "真的吗", "不会吧", "没想到", "居然", "竟然", "吓到"]),
   ("thinking",
    ["hmm", "let me think", "consider", "interesting",
     "perhaps", "maybe", "could be", "wonder",
     "actually", "on the other hand",
     "嗯", "这个嘛", "让我想想", "有意思", "也许", "好像"]),
   ("jealous",
    ["jealous", "girlfriend", "boyfriend", "dating someone",
     "seeing someone", "other girl", "other guy", "who is she",
     "who is he", "don\x27t like her", "don\x27t like him", "mine",
     "belong to me", "flirting", "cheating", "why her", "why him",
     "吃醋", "女朋友", "男朋友", "其他女生", "其他男生",
     "她是谁", "他是谁", "你是我的", "不许", "别跟她",
     "别跟他", "醋意", "嫉妒"]),
   ("shy",
    ["blush", "shy", "awkward", "flattered",
     "stop it", "don\x27t say that", "you\x27re making me",
     "too much", "oh stop", "you\x27re sweet",
     "害羞", "不好意思", "脸红", "别说了", "讨厌啦",
     "人家", "哎呀", "羞死了", "你真会说"]),
   ("disappointed",
    ["disappointed", "let down", "expected more", "not what i hoped",
     "underwhelming", "letdown", "hoped for",
     "失望", "不满意", "不如预期"]),
   ("frustrated",
    ["frustrating", "frustrated", "ugh", "so annoying", "stuck",
     "can\x27t figure out", "nothing works", "give up",
     "烦死了", "搞不定", "好烦"]),
   ("proud",
    ["proud", "nailed it", "crushed it", "achievement", "accomplished",
     "did it", "i\x27m so good", "look what i did",
     "骄傲", "自豪", "厉害了"]),
   ("grateful",
    ["grateful", "thankful", "appreciate", "thanks so much",
     "means a lot", "blessed", "so kind",
     "感恩", "感谢", "谢谢你", "太感谢"]),
   ("bored",
    ["bored", "boring", "dull", "nothing to do", "meh",
     "whatever", "yawn", "so tired of",
     "无聊", "没意思", "好闷"]),
   ("curious",
    ["curious", "tell me more", "how does", "why does",
     "i wonder", "what if", "fascinating",
     "好奇", "想知道", "怎么回事"]),
   ("embarrassed",
    ["embarrassed", "embarrassing", "cringe", "so awkward",
     "want to disappear", "mortified", "humiliating",
     "尴尬", "丢人", "好丢脸"]),
   ("playful",
    ["hehe", "tease", "playful", "just kidding", "gotcha",
     "bet you can\x27t", "catch me", "wanna play",
     "嘻嘻", "逗你的", "来玩"]),
   ("lonely",
    ["lonely", "alone", "no one", "nobody", "by myself",
     "miss someone", "isolated", "all alone",
     "孤独", "寂寞", "一个人"]),
   ("confused",
    ["confused", "don\x27t understand", "makes no sense", "huh",
     "lost me", "wait what", "i\x27m so confused",
     "困惑", "搞不懂", "什么意思"])]

/-- Relationship-type → bias label (`RELATIONSHIP_EMOTION_BIAS`). -/
def RELATIONSHIP_EMOTION_BIAS : List (String × String) :=
  [("Romantic Partner", "loving"),
   ("Ex-Partner", "sad"),
   ("Best Friend", "happy"),
   ("Friend", "happy"),
   ("Mentor", "thinking"),
   ("Companion", "happy"),
   ("Confidant", "thinking"),
   ("Rival", "excited"),
   ("Frenemy", "surprised"),
   ("Nemesis", "angry"),
   ("Critic", "thinking"),
   ("Stranger", "neutral"),
   ("Acquaintance", "neutral"),
   ("Colleague", "neutral"),
   ("Study Buddy", "thinking"),
   ("Advisor", "thinking")]

/-- How often keywords of one label hit the lowercased text
(`scores[emotion] += 1` per keyword contained in `text_lower`). -/
def keywordScore (text_lower : String) (keywords : List String) : ℕ :=
  keywords.countP (fun kw => pyInStr kw text_lower)

/-- Python's `max(scores, key=scores.get)` over the insertion-ordered score
list: the first entry with the maximal score wins (a later entry replaces
the best only when strictly greater). -/
def argmaxFirst : List (String × ℕ) → String × ℕ
  | [] => ("", 0)
  | x :: xs => xs.foldl (fun best y => if y.2 > best.2 then y else best) x

/-- `classify_emotion_heuristic`. -/
def classify_emotion_heuristic (text : String) (relationship_type : Option String := none)
    (familiarity_level : ℤ := 5) : String :=
  let text_lower := pyLower text
  let scores := EMOTION_KEYWORDS.map (fun p => (p.1, keywordScore text_lower p.2))
  let best := argmaxFirst scores
  if best.2 > 0 then best.1
  else
    match relationship_type with
    | some rt =>
      match lookupTable RELATIONSHIP_EMOTION_BIAS rt with
      | some bias =>
        if familiarity_level ≥ 7 then bias
        else if familiarity_level ≥ 4 then
          (if text.length > 20 then bias else "neutral")
        else "neutral"
      | none => "neutral"
    | none => "neutral"

/-- `classify_to_circumplex`: heuristic label → circumplex state → inertia
blend with the previous state.  Note: the source calls
`apply_inertia(prev_state, new_state)` without forwarding
`familiarity_level`, so the blend always runs at the default familiarity 5. -/
def classify_to_circumplex (text : String) (relationship_type : Option String := none)
    (familiarity_level : ℤ := 5) (mbti : Option String := none)
    (prev_state : Option EmotionState := none) : EmotionState :=
  let label := classify_emotion_heuristic text relationship_type familiarity_level
  let new_state := label_to_circumplex label mbti
  match prev_state with
  | some prev => apply_inertia prev new_state
  | none => new_state

/-! ## `app/services/gemini_live.py` — `GeminiLiveSession.reconnect`

`reconnect` loops `attempt = 1 .. max_retries`; each iteration closes the
old session, sleeps `0.5 * attempt` seconds when `attempt > 1`, then tries
`connect()`.  The environment is abstracted as `outcome attempt`: whether
the `connect()` call of that attempt succeeds (raises no exception). -/

/-- Observable result of one `reconnect()` call: the returned boolean, how
many connection attempts were performed, and the sleeps executed before
them (in seconds, in order; attempt 1 sleeps nothing). -/
structure ReconnectResult where
  ok : Bool
  attempts : ℕ
  sleeps : List ℚ
deriving DecidableEq, Repr

/-- The retry loop of `reconnect`, with `rem` attempts left and the current
1-based attempt number. -/
def reconnectGo (outcome : ℕ → Bool) : ℕ → ℕ → ReconnectResult
  | _, 0 => ⟨false, 0, []⟩
  | attempt, rem + 1 =>
    let sleeps : List ℚ := if attempt > 1 then [0.5 * (attempt : ℚ)] else []
    if outcome attempt then ⟨true, 1, sleeps⟩
    else
      let r := reconnectGo outcome (attempt + 1) rem
      ⟨r.ok, r.attempts + 1, sleeps ++ r.sleeps⟩

/-- `GeminiLiveSession.reconnect(max_retries=3)`. -/
def reconnect (outcome : ℕ → Bool) (max_retries : ℕ := 3) : ReconnectResult :=
  reconnectGo outcome 1 max_retries

/-! ## `app/api/ws_handler.py` — session state, seeding, forwarding -/

/-- `{role, text, emotion?}` entries of `state.transcript_buffer`. -/
structure TranscriptEntry where
  role : String
  text : String
  emotion : Option String := none
deriving DecidableEq, Repr

/-- Frames the orchestrator sends to the client (the subset the claims
are about, as built by `server_message`). -/
inductive ClientFrame
  | textFrame (text : String) (emotion : String) (valence arousal : ℚ) (intensity : String)
  | errorFrame (code message : String)
deriving DecidableEq, Repr

/-- Actions the orchestrator performs at a turn boundary of
`_forward_gemini_to_client` (towards client or adapter). -/
inductive BoundaryAction
  | emitError (code message : String)
  | injectContext (text : String)
  | sleepSeconds (secs : ℚ)
  | sendFollowUp (text : String)
deriving DecidableEq, Repr

/-- The fields of `SessionState` that the verified routines read or write. -/
structure OrchestratorState where
  current_emotion : EmotionState
  transcript_buffer : List TranscriptEntry
  user_interacted_since_last_emotion : Bool
  relationship_type : Option String
  familiarity_level : ℤ
  mbti : Option String
  burst_count : ℕ
  burst_cooldown_until : ℚ
  running : Bool
deriving Repr

/-- Feature-1 burst constants. -/
def BURST_AROUSAL_THRESHOLD : ℚ := 0.7

def BURST_MAX_FOLLOW_UPS : ℕ := 3

def BURST_COOLDOWN_SECONDS : ℚ := 30.0

def BURST_FOLLOW_UP_PROMPTS : List String :=
  ["你还有更多想说的，继续表达你的感受，自然地补充一两句。",
   "你觉得意犹未尽，再说一点你的想法。",
   "你还想再说点什么，简短地补充。"]

/-- Default starting emotions per relationship type
(`RELATIONSHIP_DEFAULT_EMOTIONS`, values `(valence, arousal, label,
intensity)` exactly as in the source — including the `"medium"` strings). -/
def RELATIONSHIP_DEFAULT_EMOTIONS : List (String × ℚ × ℚ × String × String) :=
  [("Romantic Partner", 0.6, 0.5, "loving", "medium"),
   ("Best Friend", 0.5, 0.4, "happy", "medium"),
   ("Friend", 0.3, 0.3, "happy", "low"),
   ("Companion", 0.3, 0.3, "happy", "low"),
   ("Mentor", 0.2, 0.3, "thinking", "low"),
   ("Confidant", 0.2, 0.3, "thinking", "low"),
   ("Rival", 0.1, 0.5, "excited", "medium"),
   ("Frenemy", 0.0, 0.4, "surprised", "low"),
   ("Nemesis", -0.2, 0.5, "angry", "low"),
   ("Critic", 0.0, 0.3, "thinking", "low"),
   ("Ex-Partner", -0.3, 0.4, "sad", "low"),
   ("Stranger", 0.0, 0.2, "neutral", "low"),
   ("Acquaintance", 0.1, 0.2, "neutral", "low"),
   ("Colleague", 0.1, 0.2, "neutral", "low"),
   ("Study Buddy", 0.2, 0.3, "thinking", "low"),
   ("Advisor", 0.2, 0.3, "thinking", "low")]

/-- The `SessionState.__init__` default emotion. -/
def initialSessionEmotion : EmotionState :=
  { valence := 0.0, arousal := 0.2, label := "neutral", intensity := "low" }

/-- Emotion seeding when no persisted AI emotion exists (`websocket_endpoint`
lines 265-270): the per-relationship default, else the constructor default. -/
def seedEmotionFromRelationship (relationship_type : Option String) : EmotionState :=
  match relationship_type with
  | some rt =>
    match lookupTable RELATIONSHIP_DEFAULT_EMOTIONS rt with
    | some (v, a, label, intensity) =>
        { valence := v, arousal := a, label := label, intensity := intensity }
    | none => initialSessionEmotion
  | none => initialSessionEmotion

/-- Emotion seeding from the last persisted AI emotion (`websocket_endpoint`
lines 256-263): the stored row's values are loaded verbatim. -/
def seedEmotionFromHistory (emotion : String) (valence arousal : ℚ)
    (intensity : String) : EmotionState :=
  { valence := valence, arousal := arousal, label := emotion, intensity := intensity }

/-- Session state right after the handshake for a character with no
persisted emotion: constructor defaults plus relationship seeding. -/
def initOrchestratorState (relationship_type : Option String) (familiarity_level : ℤ)
    (mbti : Option String) : OrchestratorState :=
  { current_emotion := seedEmotionFromRelationship relationship_type
    transcript_buffer := []
    user_interacted_since_last_emotion := true
    relationship_type := relationship_type
    familiarity_level := familiarity_level
    mbti := mbti
    burst_count := 0
    burst_cooldown_until := 0.0
    running := true }

/-- The output-transcription branch of `_forward_gemini_to_client`
(lines 606-642).  The enclosing guard requires a non-empty `text`; if the
interaction-pending flag is set the emotion is reclassified and the flag
cleared; the transcript append and the text frame happen only when
`text.strip()` is non-empty. -/
def handleOutputTranscription (st : OrchestratorState) (text : String) :
    OrchestratorState × List ClientFrame :=
  if text = "" then (st, [])
  else
    let p :=
      if st.user_interacted_since_last_emotion then
        let emo := classify_to_circumplex text st.relationship_type
          st.familiarity_level st.mbti (some st.current_emotion)
        (emo, { st with current_emotion := emo,
                        user_interacted_since_last_emotion := false })
      else (st.current_emotion, st)
    if pyStrip text ≠ "" then
      ({ p.2 with transcript_buffer := p.2.transcript_buffer ++
          [{ role := "model", text := text, emotion := some p.1.label }] },
       [ClientFrame.textFrame text p.1.label p.1.valence p.1.arousal p.1.intensity])
    else (p.2, [])

/-- Result of one evaluation of the Feature-1 emotional-burst rule. -/
structure BurstOutcome where
  st : OrchestratorState
  fired : Bool
  reset : Bool

/-- Lines 687-709: fire a follow-up when arousal ≥ 0.7, fewer than 3 bursts
so far and the cooldown has elapsed; otherwise, if any burst happened,
start a 30 s cooldown and zero the counter. -/
def evalEmotionalBurst (st : OrchestratorState) (now : ℚ) : BurstOutcome :=
  if BURST_AROUSAL_THRESHOLD ≤ st.current_emotion.arousal ∧
      st.burst_count < BURST_MAX_FOLLOW_UPS ∧ st.burst_cooldown_until ≤ now then
    ⟨{ st with burst_count := st.burst_count + 1 }, true, false⟩
  else if st.burst_count > 0 then
    ⟨{ st with burst_cooldown_until := now + BURST_COOLDOWN_SECONDS,
               burst_count := 0 }, false, true⟩
  else ⟨st, false, false⟩

/-- Python `"\n".join`. -/
def joinWith (sep : String) : List String → String
  | [] => ""
  | [x] => x
  | x :: y :: xs => x ++ sep ++ joinWith sep (y :: xs)

/-- One context-replay line (lines 678-681): role prefix plus the entry's
text truncated to 150 characters. -/
def formatContextLine (e : TranscriptEntry) : String :=
  (if e.role = "user" then "用户" else "你") ++ ": " ++ ⟨e.text.data.take 150⟩

/-- Result of one pass over the turn boundary of
`_forward_gemini_to_client` (lines 661-709). -/
structure BoundaryResult where
  st : OrchestratorState
  actions : List BoundaryAction
  continueLoop : Bool
  burstFired : Bool
  burstReset : Bool

/-- The turn boundary: on a dead reconnect emit exactly one
`GEMINI_DISCONNECTED` error frame and leave the loop; otherwise inject the
condensed transcript (last 20 entries) and evaluate the burst rule. -/
def turnBoundary (st : OrchestratorState) (reconnect_ok : Bool) (now : ℚ) :
    BoundaryResult :=
  if st.running = false then ⟨st, [], false, false, false⟩
  else if reconnect_ok = false then
    ⟨st, [BoundaryAction.emitError "GEMINI_DISCONNECTED" "Lost connection to AI"],
     false, false, false⟩
  else
    let ctxActions :=
      if st.transcript_buffer ≠ [] then
        let recent := st.transcript_buffer.drop (st.transcript_buffer.length - 20)
        let context := joinWith "\n" (recent.map formatContextLine)
        [BoundaryAction.injectContext
          ("之前的对话记录:\n" ++ context ++ "\n\n继续自然地聊天，等用户说话。")]
      else []
    let b := evalEmotionalBurst st now
    let burstActions :=
      if b.fired then
        let prompt := BURST_FOLLOW_UP_PROMPTS.getD
          (st.burst_count % BURST_FOLLOW_UP_PROMPTS.length) ""
        [BoundaryAction.sleepSeconds 0.8] ++
          (if st.running then [BoundaryAction.sendFollowUp prompt] else [])
      else []
    ⟨b.st, ctxActions ++ burstActions, true, b.fired, b.reset⟩

/-! Session-level event traces, for the temporal burst claim.  A
`userFrame` is an inbound client audio/text frame (lines 493-495 and
521-523: it sets the interaction-pending flag and zeroes `burst_count`); an
`outputTranscript` is a completed output transcription; `turnBoundaryEvt`
is one exit of the adapter's receive generator. -/

/-- Events affecting the session's burst machinery. -/
inductive SessEvent
  | userFrame
  | outputTranscript (text : String)
  | turnBoundaryEvt (reconnect_ok : Bool) (now : ℚ)

/-- A running session: its state plus counters of observed burst firings
and counter-zeroings (a zeroing is a user frame, which always sets
`burst_count = 0`, or the cooldown-starting branch of the burst rule). -/
structure SessionRun where
  st : OrchestratorState
  halted : Bool
  bursts : ℕ
  resets : ℕ

/-- One scheduler-visible event applied to the running session. -/
def sessStep (r : SessionRun) (e : SessEvent) : SessionRun :=
  if r.halted then r
  else
    match e with
    | .userFrame =>
        { r with st := { r.st with user_interacted_since_last_emotion := true,
                                   burst_count := 0 },
                 resets := r.resets + 1 }
    | .outputTranscript text =>
        { r with st := (handleOutputTranscription r.st text).1 }
    | .turnBoundaryEvt ok now =>
        let b := turnBoundary r.st ok now
        { st := b.st
          halted := !b.continueLoop
          bursts := r.bursts + (if b.burstFired then 1 else 0)
          resets := r.resets + (if b.burstReset then 1 else 0) }

/-- Run a session from an initial state through a list of events. -/
def runSession (init : OrchestratorState) (events : List SessEvent) : SessionRun :=
  events.foldl sessStep ⟨init, false, 0, 0⟩

/-! ## `app/api/message_routes.py` — delayed proactive message lock

`_maybe_send_proactive` first tests `lock.locked()` and returns (drops the
trigger) when the lock is held; otherwise it acquires the lock — in asyncio,
acquiring a free lock does not suspend, so test-and-acquire is one atomic
block — then sleeps, generates and persists one message, and releases.  Two
scheduled tasks for the same (character, user) pair share one lock; the
scheduler interleaves their atomic blocks in any order. -/

/-- Where a proactive task is: before its locked-test, holding the lock, or
finished (either dropped or after persisting). -/
inductive TaskPhase
  | ready
  | holding
  | done
deriving DecidableEq, Repr

/-- Two proactive tasks racing on one (character, user) lock.  `execs`
counts completed generate-and-persist executions; `droppedN` records that
task N's `lock.locked()` test saw the lock held and the task returned. -/
structure ProactiveSys where
  phase0 : TaskPhase
  phase1 : TaskPhase
  dropped0 : Bool
  dropped1 : Bool
  execs : ℕ
deriving DecidableEq, Repr

/-- `lock.locked()`: some task is between acquire and release. -/
def lockHeld (s : ProactiveSys) : Bool :=
  s.phase0 = TaskPhase.holding || s.phase1 = TaskPhase.holding

/-- One atomic block of the scheduled task `tid`. -/
def proactiveStep (s : ProactiveSys) (tid : Bool) : ProactiveSys :=
  if tid = false then
    match s.phase0 with
    | .ready =>
        if lockHeld s then { s with phase0 := .done, dropped0 := true }
        else { s with phase0 := .holding }
    | .holding => { s with phase0 := .done, execs := s.execs + 1 }
    | .done => s
  else
    match s.phase1 with
    | .ready =>
        if lockHeld s then { s with phase1 := .done, dropped1 := true }
        else { s with phase1 := .holding }
    | .holding => { s with phase1 := .done, execs := s.execs + 1 }
    | .done => s

/-- Run both tasks under a scheduling (the list says which task runs its
next atomic block). -/
def runProactive (trace : List Bool) : ProactiveSys :=
  trace.foldl proactiveStep ⟨.ready, .ready, false, false, 0⟩

/-! ## Helper lemmas -/

/-- Invariant of the two-task proactive lock system. -/
def proactiveInv (s : ProactiveSys) : Prop :=
  ¬(s.phase0 = TaskPhase.holding ∧ s.phase1 = TaskPhase.holding) ∧
  (s.phase0 = TaskPhase.holding → s.dropped0 = false) ∧
  (s.phase1 = TaskPhase.holding → s.dropped1 = false) ∧
  (s.dropped0 = true → s.phase0 = TaskPhase.done) ∧
  (s.dropped1 = true → s.phase1 = TaskPhase.done) ∧
  ¬(s.dropped0 = true ∧ s.dropped1 = true) ∧
  s.execs = (if s.phase0 = TaskPhase.done ∧ s.dropped0 = false then 1 else 0) +
            (if s.phase1 = TaskPhase.done ∧ s.dropped1 = false then 1 else 0)

lemma proactiveStep_inv {s : ProactiveSys} (t : Bool) (h : proactiveInv s) :
    proactiveInv (proactiveStep s t) := by
  rcases s with ⟨p0, p1, d0, d1, e⟩
  rcases t <;> rcases p0 <;> rcases p1 <;> rcases d0 <;> rcases d1 <;>
    simp_all [proactiveStep, proactiveInv, lockHeld]

lemma runProactive_inv (trace : List Bool) : proactiveInv (runProactive trace) := by
  have h : ∀ (l : List Bool) (s : ProactiveSys), proactiveInv s →
      proactiveInv (l.foldl proactiveStep s) := by
    intro l
    induction l with
    | nil => intro s hs; exact hs
    | cons t rest ih => intro s hs; exact ih _ (proactiveStep_inv t hs)
  exact h _ _ (by simp [proactiveInv])

/-! ## Claim C1 -/

/-- C1 (amended): when every connection attempt fails, `reconnect()`
returns `false`; the orchestrator's turn-boundary path then emits exactly
one error frame — whose code is `GEMINI_DISCONNECTED` — and leaves the
adapter→client forwarding loop. -/
theorem C1_reconnect_exhaustion_single_error :
    (∀ outcome : ℕ → Bool, (∀ i, outcome i = false) → (reconnect outcome 3).ok = false) ∧
    (∀ (st : OrchestratorState) (now : ℚ), st.running = true →
      (turnBoundary st false now).actions =
        [BoundaryAction.emitError "GEMINI_DISCONNECTED" "Lost connection to AI"] ∧
      (turnBoundary st false now).continueLoop = false) := by
  constructor
  · intro outcome h
    simp [reconnect, reconnectGo, h]
  · intro st now h
    constructor <;> simp [turnBoundary, h]

/-- C1 witness: a session whose three reconnect attempts all fail. -/
theorem C1_reconnect_exhaustion_single_error_witness :
    (reconnect (fun _ => false) 3).ok = false ∧
    (turnBoundary (initOrchestratorState none 5 none) false 0).actions =
      [BoundaryAction.emitError "GEMINI_DISCONNECTED" "Lost connection to AI"] :=
  ⟨C1_reconnect_exhaustion_single_error.1 (fun _ => false) (fun _ => rfl),
   (C1_reconnect_exhaustion_single_error.2 (initOrchestratorState none 5 none) 0 rfl).1⟩

/-- C1 counterexample: the single emitted error frame carries code
`GEMINI_DISCONNECTED`, not `UPSTREAM_DISCONNECTED`; no frame with the
latter code exists anywhere in the code base. -/
theorem C1_error_code_counterexample :
    (turnBoundary (initOrchestratorState none 5 none) false 0).actions =
      [BoundaryAction.emitError "GEMINI_DISCONNECTED" "Lost connection to AI"] ∧
    ("GEMINI_DISCONNECTED" : String) ≠ "UPSTREAM_DISCONNECTED" := by
  constructor
  · simp [turnBoundary, initOrchestratorState]
  · decide

/-! ## Claim C3 -/

/-- C3: the relationship-default seed for "Romantic Partner" is stored as
`(0.6, 0.5, "loving", "medium")`; the nearest label to `(0.6, 0.5)` is
`"happy"` and the intensity of arousal `0.5` is `"mid"`, so the seeded
state violates the claimed (and internally documented)
nearest-neighbour/intensity invariant — `"medium"` is not even one of the
code's own `INTENSITY_LEVELS`. -/
theorem C3_relationship_default_breaks_invariant :
    seedEmotionFromRelationship (some "Romantic Partner") =
      { valence := 0.6, arousal := 0.5, label := "loving", intensity := "medium" } ∧
    (seedEmotionFromRelationship (some "Romantic Partner")).intensity ∉ INTENSITY_LEVELS ∧
    _nearest_label 0.6 0.5 = "happy" ∧
    (seedEmotionFromRelationship (some "Romantic Partner")).label ≠ "happy" ∧
    _intensity_from_arousal 0.5 = "mid" ∧
    (seedEmotionFromRelationship (some "Romantic Partner")).intensity ≠ "mid" := by
  refine ⟨?_, ?_, ?_, ?_, ?_, ?_⟩ <;>
    norm_num +decide [seedEmotionFromRelationship, lookupTable,
      RELATIONSHIP_DEFAULT_EMOTIONS, initialSessionEmotion, _nearest_label,
      nearestGo, distSq, EMOTION_MAP, _intensity_from_arousal, INTENSITY_LEVELS]

/-! ## Claim C5 -/

/-- C5 (amended): `reconnect()` performs at most 3 connection attempts and
sleeps `0.5 * attempt` seconds before every attempt after the first: 0 s
before the first, 1.0 s before the second, 1.5 s before the third. -/
theorem C5_reconnect_backoff :
    ∀ outcome : ℕ → Bool,
      (reconnect outcome 3).attempts ≤ 3 ∧
      (reconnect outcome 3).sleeps =
        ([1.0, 1.5] : List ℚ).take ((reconnect outcome 3).attempts - 1) := by
  intro outcome
  rcases h1 : outcome 1 <;> rcases h2 : outcome 2 <;> rcases h3 : outcome 3 <;>
    norm_num [reconnect, reconnectGo, h1, h2, h3]

/-- C5 counterexample: with all attempts failing the sleeps actually
performed are 1.0 s and 1.5 s, not the claimed 0.5 s and 1.0 s. -/
theorem C5_backoff_counterexample :
    (reconnect (fun _ => false) 3).sleeps = [1.0, 1.5] ∧
    ([1.0, 1.5] : List ℚ) ≠ [0.5, 1.0] := by
  norm_num [reconnect, reconnectGo]

/-! ## Claim C7 -/

/-- C7: under any interleaving in which both proactive tasks for the same
(character, user) pair run to completion and the second task's
`lock.locked()` test happened while the lock was held, exactly one
generate-and-persist execution occurs, performed by the other task; the
concurrent trigger is dropped (it never queues). -/
theorem C7_proactive_lock_single_execution (trace : List Bool)
    (h0 : (runProactive trace).phase0 = TaskPhase.done)
    (h1 : (runProactive trace).phase1 = TaskPhase.done)
    (hd : (runProactive trace).dropped1 = true) :
    (runProactive trace).execs = 1 ∧ (runProactive trace).dropped0 = false := by
  have hinv := runProactive_inv trace
  rcases hinv with ⟨-, -, -, -, -, hnb, hexec⟩
  have hd0 : (runProactive trace).dropped0 = false := by
    rcases hb : (runProactive trace).dropped0
    · rfl
    · exact absurd ⟨hb, hd⟩ hnb
  refine ⟨?_, hd0⟩
  rw [hexec, if_pos ⟨h0, hd0⟩, if_neg (by simp [hd])]

/-- C7 witness: the schedule task0-check, task1-check (while task0 holds
the lock), task0-complete. -/
theorem C7_proactive_lock_single_execution_witness :
    (runProactive [false, true, false]).execs = 1 ∧
    (runProactive [false, true, false]).dropped0 = false :=
  C7_proactive_lock_single_execution [false, true, false]
    (by decide) (by decide) (by decide)

lemma inertia_weights_sum (prev : EmotionState) (f : ℤ) :
    (_inertia_weights prev f).1 + (_inertia_weights prev f).2 = 1 := by
  unfold _inertia_weights
  split_ifs <;> norm_num

lemma clamp_of_le {x lo hi : ℚ} (h1 : lo ≤ x) (h2 : x ≤ hi) : _clamp x lo hi = x := by
  rw [_clamp, min_eq_right h2, max_eq_right h1]

/-! ## Claim C2 -/

/-- C2 (amended): `classify_to_circumplex` calls `apply_inertia` without
forwarding the supplied familiarity level, so whenever the previous state's
label is not "neutral" the blend runs at the default familiarity 5 — i.e.
with weights (prev, new) = (0.50, 0.50) — for every supplied familiarity
level, blending valence and arousal independently as weighted averages. -/
theorem C2_classify_blend_ignores_familiarity
    (text : String) (rt : Option String) (fam : ℤ) (mbti : Option String)
    (prev : EmotionState) (h : prev.label ≠ "neutral") :
    classify_to_circumplex text rt fam mbti (some prev) =
      (let nw := label_to_circumplex (classify_emotion_heuristic text rt fam) mbti
       let v := _clamp (prev.valence * 0.5 + nw.valence * 0.5) (-1) 1
       let a := _clamp (prev.arousal * 0.5 + nw.arousal * 0.5) 0 1
       { valence := pyRound3 v, arousal := pyRound3 a,
         label := _nearest_label v a, intensity := _intensity_from_arousal a }) := by
  have hw : _inertia_weights prev 5 = (0.5, 0.5) := by
    rw [_inertia_weights, if_neg h]
    norm_num
  simp only [classify_to_circumplex, apply_inertia, hw]

/-- C2 witness: concrete instantiation at familiarity 8 and a previous
"angry" state. -/
theorem C2_classify_blend_ignores_familiarity_witness :
    classify_to_circumplex "" none 8 none
        (some { valence := 0.8, arousal := 0.9, label := "angry", intensity := "high" }) =
      (let nw := label_to_circumplex (classify_emotion_heuristic "" none 8) none
       let v := _clamp ((0.8 : ℚ) * 0.5 + nw.valence * 0.5) (-1) 1
       let a := _clamp ((0.9 : ℚ) * 0.5 + nw.arousal * 0.5) 0 1
       { valence := pyRound3 v, arousal := pyRound3 a,
         label := _nearest_label v a, intensity := _intensity_from_arousal a }) :=
  C2_classify_blend_ignores_familiarity "" none 8 none
    { valence := 0.8, arousal := 0.9, label := "angry", intensity := "high" }
    (by decide)

/-- C2 counterexample: at familiarity 8 with previous state
(0.8, 0.9, "angry", "high") and text with no keyword, the claim predicts
blend weights (0.35, 0.65), i.e. valence 0.28; the code produces 0.4. -/
theorem C2_familiarity_counterexample :
    (classify_to_circumplex "" none 8 none
        (some { valence := 0.8, arousal := 0.9, label := "angry",
                intensity := "high" })).valence = 0.4 ∧
    (label_to_circumplex (classify_emotion_heuristic "" none 8) none).valence = 0 ∧
    pyRound3 (_clamp ((0.8 : ℚ) * 0.35 + 0 * 0.65) (-1) 1) = 0.28 ∧
    ((0.4 : ℚ) ≠ 0.28) := by
  have h1 : classify_emotion_heuristic "" none 8 = "neutral" := by decide
  have h2 : label_to_circumplex "neutral" none =
      { valence := 0, arousal := 0.2, label := "neutral", intensity := "low" } := by
    norm_num +decide [label_to_circumplex, lookupTable, EMOTION_MAP,
      _apply_mbti_modifiers, pyRound3, _nearest_label, nearestGo, distSq,
      _intensity_from_arousal]
  have h3 : (classify_to_circumplex "" none 8 none
      (some { valence := 0.8, arousal := 0.9, label := "angry",
              intensity := "high" })).valence = 0.4 := by
    simp only [classify_to_circumplex, h1, h2, apply_inertia, _inertia_weights]
    norm_num +decide [pyRound3, _clamp]
  refine ⟨h3, ?_, ?_, by norm_num⟩
  · rw [h1, h2]
  · norm_num [pyRound3, _clamp]

/-! ## Claim C8 -/

/-- C8 (amended): the inertia blend is idempotent on canonical states: if
`s` lies in the domain, its coordinates are 3-decimal values, its label is
the nearest label of its coordinates and its intensity matches its arousal,
then `apply_inertia s s f = s` for every familiarity level `f`. -/
theorem C8_inertia_idempotent_on_canonical (s : EmotionState) (f : ℤ)
    (hv1 : -1 ≤ s.valence) (hv2 : s.valence ≤ 1)
    (ha1 : 0 ≤ s.arousal) (ha2 : s.arousal ≤ 1)
    (hrv : pyRound3 s.valence = s.valence) (hra : pyRound3 s.arousal = s.arousal)
    (hl : s.label = _nearest_label s.valence s.arousal)
    (hi : s.intensity = _intensity_from_arousal s.arousal) :
    apply_inertia s s f = s := by
  have hv : s.valence * (_inertia_weights s f).1 + s.valence * (_inertia_weights s f).2
      = s.valence := by
    rw [← mul_add, inertia_weights_sum, mul_one]
  have ha : s.arousal * (_inertia_weights s f).1 + s.arousal * (_inertia_weights s f).2
      = s.arousal := by
    rw [← mul_add, inertia_weights_sum, mul_one]
  rcases s with ⟨v, a, l, i⟩
  simp only at hv ha hv1 hv2 ha1 ha2 hrv hra hl hi
  simp only [apply_inertia, hv, ha, clamp_of_le hv1 hv2, clamp_of_le ha1 ha2,
    EmotionState.mk.injEq]
  exact ⟨hrv, hra, hl.symm, hi.symm⟩

/-- C8 witness: the canonical "happy" state at familiarity 9. -/
theorem C8_inertia_idempotent_witness :
    apply_inertia { valence := 0.7, arousal := 0.5, label := "happy", intensity := "mid" }
        { valence := 0.7, arousal := 0.5, label := "happy", intensity := "mid" } 9 =
      { valence := 0.7, arousal := 0.5, label := "happy", intensity := "mid" } :=
  C8_inertia_idempotent_on_canonical
    { valence := 0.7, arousal := 0.5, label := "happy", intensity := "mid" } 9
    (by norm_num) (by norm_num) (by norm_num) (by norm_num)
    (by norm_num [pyRound3]) (by norm_num [pyRound3])
    (by norm_num +decide [_nearest_label, nearestGo, distSq, EMOTION_MAP])
    (by norm_num [_intensity_from_arousal])

/-- C8 counterexample: for the (reachable, session-seeded) state
(0.6, 0.5, "loving", "medium"), blending it with itself relabels it to
"happy" and re-derives intensity "mid", so the result differs from the
input: idempotence fails for general `EmotionState`s. -/
theorem C8_idempotence_counterexample :
    (apply_inertia { valence := 0.6, arousal := 0.5, label := "loving", intensity := "medium" }
        { valence := 0.6, arousal := 0.5, label := "loving", intensity := "medium" } 5).label
      = "happy" ∧
    apply_inertia { valence := 0.6, arousal := 0.5, label := "loving", intensity := "medium" }
        { valence := 0.6, arousal := 0.5, label := "loving", intensity := "medium" } 5 ≠
      { valence := 0.6, arousal := 0.5, label := "loving", intensity := "medium" } := by
  have hl : (apply_inertia
      { valence := 0.6, arousal := 0.5, label := "loving", intensity := "medium" }
      { valence := 0.6, arousal := 0.5, label := "loving", intensity := "medium" } 5).label
      = "happy" := by
    norm_num +decide [apply_inertia, _inertia_weights, _clamp, pyRound3,
      _nearest_label, nearestGo, distSq, EMOTION_MAP, _intensity_from_arousal]
  refine ⟨hl, fun heq => ?_⟩
  have := congrArg EmotionState.label heq
  rw [hl] at this
  exact absurd this (by decide)

/-! ## Claim C6 -/

lemma keywordScore_eq_zero {tl : String} {kws : List String}
    (h : ∀ kw ∈ kws, pyInStr kw tl = false) : keywordScore tl kws = 0 := by
  rw [keywordScore, List.countP_eq_zero]
  intro kw hkw
  simp [h kw hkw]

lemma argmaxAux_snd_zero :
    ∀ (xs : List (String × ℕ)) (acc : String × ℕ), acc.2 = 0 → (∀ p ∈ xs, p.2 = 0) →
      (xs.foldl (fun best y => if y.2 > best.2 then y else best) acc).2 = 0 := by
  intro xs
  induction xs with
  | nil => intro acc hacc _; exact hacc
  | cons x rest ih =>
    intro acc hacc hall
    have hx : x.2 = 0 := hall x (by simp)
    simp only [List.foldl_cons]
    apply ih
    · by_cases hc : x.2 > acc.2 <;> simp [hc, hx, hacc]
    · intro p hp; exact hall p (by simp [hp])

lemma argmaxFirst_snd_zero (l : List (String × ℕ)) (h : ∀ p ∈ l, p.2 = 0) :
    (argmaxFirst l).2 = 0 := by
  cases l with
  | nil => rfl
  | cons x xs =>
    exact argmaxAux_snd_zero xs x (h x (by simp)) (fun p hp => h p (by simp [hp]))

/-- With no keyword hit, `classify_emotion_heuristic` reduces to the
relationship-bias branch. -/
lemma heuristic_no_keyword (text : String) (rt : Option String) (fam : ℤ)
    (h : ∀ p ∈ EMOTION_KEYWORDS, ∀ kw ∈ p.2, pyInStr kw (pyLower text) = false) :
    classify_emotion_heuristic text rt fam =
      match rt with
      | some r =>
        match lookupTable RELATIONSHIP_EMOTION_BIAS r with
        | some bias =>
          if fam ≥ 7 then bias
          else if fam ≥ 4 then (if text.length > 20 then bias else "neutral")
          else "neutral"
        | none => "neutral"
      | none => "neutral" := by
  have hscores : ∀ p ∈ EMOTION_KEYWORDS.map
      (fun p => (p.1, keywordScore (pyLower text) p.2)), p.2 = 0 := by
    intro p hp
    rw [List.mem_map] at hp
    obtain ⟨q, hq, rfl⟩ := hp
    exact keywordScore_eq_zero (h q hq)
  have hbest := argmaxFirst_snd_zero _ hscores
  simp only [classify_emotion_heuristic, hbest]
  rw [if_neg (by norm_num)]
  rcases rt with _ | r
  · rfl
  · rcases hlk : lookupTable RELATIONSHIP_EMOTION_BIAS r with _ | bias <;> simp [hlk]

/-- C6: for every text with no emotion-keyword occurrence, the heuristic
classifier returns the relationship bias label when familiarity ≥ 7; for
familiarity 4-6 the bias label exactly when the text is longer than 20
characters and "neutral" otherwise; and "neutral" whenever familiarity < 4,
the relationship type has no bias entry, or no relationship type is given. -/
theorem C6_no_keyword_bias_gating (text : String) (fam : ℤ) (rt : Option String)
    (hnk : ∀ p ∈ EMOTION_KEYWORDS, ∀ kw ∈ p.2, pyInStr kw (pyLower text) = false) :
    (∀ r bias, rt = some r → lookupTable RELATIONSHIP_EMOTION_BIAS r = some bias →
        7 ≤ fam → classify_emotion_heuristic text rt fam = bias) ∧
    (∀ r bias, rt = some r → lookupTable RELATIONSHIP_EMOTION_BIAS r = some bias →
        4 ≤ fam → fam < 7 →
        classify_emotion_heuristic text rt fam =
          (if text.length > 20 then bias else "neutral")) ∧
    (fam < 4 → classify_emotion_heuristic text rt fam = "neutral") ∧
    (∀ r, rt = some r → lookupTable RELATIONSHIP_EMOTION_BIAS r = none →
        classify_emotion_heuristic text rt fam = "neutral") ∧
    (rt = none → classify_emotion_heuristic text rt fam = "neutral") := by
  rw [heuristic_no_keyword text rt fam hnk]
  refine ⟨?_, ?_, ?_, ?_, ?_⟩
  · intro r bias hrt hlk h7
    subst hrt
    simp only [hlk]
    rw [if_pos (by omega)]
  · intro r bias hrt hlk h4 h7
    subst hrt
    simp only [hlk]
    rw [if_neg (by omega), if_pos (by omega)]
  · intro hlt
    rcases rt with _ | r
    · rfl
    · rcases hlk : lookupTable RELATIONSHIP_EMOTION_BIAS r with _ | bias
      · simp only [hlk]
      · simp only [hlk]
        rw [if_neg (by omega), if_neg (by omega)]
  · intro r hrt hlk
    subst hrt
    simp only [hlk]
  · intro hrt
    subst hrt
    rfl

/-- C6 witness: the spec's own scenario — relationship "Nemesis",
familiarity 8, empty text (no keyword) → bias label "angry". -/
theorem C6_no_keyword_bias_gating_witness :
    classify_emotion_heuristic "" (some "Nemesis") 8 = "angry" :=
  (C6_no_keyword_bias_gating "" 8 (some "Nemesis") (by decide)).1
    "Nemesis" "angry" rfl (by decide) (by decide)

/-! ## Claim C9 -/

lemma clamp_mem {x lo hi : ℚ} (h : lo ≤ hi) :
    lo ≤ _clamp x lo hi ∧ _clamp x lo hi ≤ hi :=
  ⟨le_max_left _ _, max_le h (min_le_left _ _)⟩

lemma le_pyRound3 {x : ℚ} {a : ℤ} (h1 : (a : ℚ) ≤ x * 1000) :
    (a : ℚ) / 1000 ≤ pyRound3 x := by
  simp only [pyRound3]
  have hna : a ≤ ⌊x * 1000⌋ := Int.le_floor.mpr h1
  split_ifs <;> (gcongr <;> exact_mod_cast (by omega : a ≤ _))

lemma pyRound3_le {x : ℚ} {b : ℤ} (h2 : x * 1000 ≤ (b : ℚ)) :
    pyRound3 x ≤ (b : ℚ) / 1000 := by
  simp only [pyRound3]
  have hfl : (⌊x * 1000⌋ : ℚ) ≤ x * 1000 := Int.floor_le _
  have hnb : ⌊x * 1000⌋ ≤ b := by exact_mod_cast le_trans hfl h2
  have hstrict : ¬(x * 1000 - ⌊x * 1000⌋ < 1/2) → ⌊x * 1000⌋ < b := by
    intro hge
    have : (⌊x * 1000⌋ : ℚ) < x * 1000 := by
      push_neg at hge
      linarith
    exact_mod_cast lt_of_lt_of_le this h2
  split_ifs with h h' h''
  all_goals gcongr
  all_goals
    first
      | exact_mod_cast hnb
      | exact_mod_cast (by have := hstrict h; omega : ⌊x * 1000⌋ + 1 ≤ b)

lemma pyRound3_mem_pm1 {x : ℚ} (h1 : -1 ≤ x) (h2 : x ≤ 1) :
    -1 ≤ pyRound3 x ∧ pyRound3 x ≤ 1 := by
  have ha : ((-1000 : ℤ) : ℚ) ≤ x * 1000 := by push_cast; linarith
  have hb : x * 1000 ≤ ((1000 : ℤ) : ℚ) := by push_cast; linarith
  have l1 := le_pyRound3 ha
  have l2 := pyRound3_le hb
  norm_num at l1 l2
  exact ⟨l1, l2⟩

lemma pyRound3_mem_01 {x : ℚ} (h1 : 0 ≤ x) (h2 : x ≤ 1) :
    0 ≤ pyRound3 x ∧ pyRound3 x ≤ 1 := by
  have ha : ((0 : ℤ) : ℚ) ≤ x * 1000 := by push_cast; linarith
  have hb : x * 1000 ≤ ((1000 : ℤ) : ℚ) := by push_cast; linarith
  have l1 := le_pyRound3 ha
  have l2 := pyRound3_le hb
  norm_num at l1 l2
  exact ⟨l1, l2⟩

lemma lookupTable_mem {α : Type} :
    ∀ (l : List (String × α)) (k : String) (v : α),
      lookupTable l k = some v → (k, v) ∈ l := by
  intro l
  induction l with
  | nil => intro k v h; simp [lookupTable] at h
  | cons x rest ih =>
    intro k v h
    rcases x with ⟨kx, vx⟩
    by_cases he : kx = k
    · subst he
      rw [lookupTable, if_pos rfl] at h
      rw [Option.some_inj] at h
      subst h
      exact List.mem_cons_self _ _
    · rw [lookupTable, if_neg he] at h
      exact List.mem_cons_of_mem _ (ih k v h)

lemma emotion_map_bounds :
    ∀ p ∈ EMOTION_MAP, -1 ≤ p.2.1 ∧ p.2.1 ≤ 1 ∧ 0 ≤ p.2.2 ∧ p.2.2 ≤ 1 := by
  intro p hp
  simp only [EMOTION_MAP] at hp
  fin_cases hp <;> norm_num

lemma nearestGo_mem (v a : ℚ) :
    ∀ (l : List (String × ℚ × ℚ)) (best : String) (bd : Option ℚ),
      nearestGo v a best bd l ∈ best :: l.map Prod.fst := by
  intro l
  induction l with
  | nil => intro best bd; simp [nearestGo]
  | cons x rest ih =>
    intro best bd
    rcases x with ⟨lx, vx, ax⟩
    rcases bd with _ | d
    · have h := ih lx (some (distSq v a vx ax))
      simp only [nearestGo, List.map_cons, List.mem_cons] at h ⊢
      tauto
    · simp only [nearestGo, List.map_cons, List.mem_cons]
      split_ifs
      · have h := ih lx (some (distSq v a vx ax))
        simp only [List.mem_cons] at h
        tauto
      · have h := ih best (some d)
        simp only [List.mem_cons] at h
        tauto

lemma nearest_label_mem (v a : ℚ) : _nearest_label v a ∈ EMOTION_LABELS := by
  have h := nearestGo_mem v a EMOTION_MAP "neutral" none
  rw [_nearest_label]
  rcases List.mem_cons.mp h with h1 | h2
  · rw [h1]
    decide
  · exact h2

lemma intensity_mem (a : ℚ) : _intensity_from_arousal a ∈ INTENSITY_LEVELS := by
  rw [_intensity_from_arousal]
  split_ifs <;> decide

lemma mbti_modifiers_bounds {v a : ℚ} (mbti : Option String)
    (hv1 : -1 ≤ v) (hv2 : v ≤ 1) (ha1 : 0 ≤ a) (ha2 : a ≤ 1) :
    -1 ≤ (_apply_mbti_modifiers v a mbti).1 ∧ (_apply_mbti_modifiers v a mbti).1 ≤ 1 ∧
    0 ≤ (_apply_mbti_modifiers v a mbti).2 ∧ (_apply_mbti_modifiers v a mbti).2 ≤ 1 := by
  rcases mbti with _ | s
  · exact ⟨hv1, hv2, ha1, ha2⟩
  · rw [_apply_mbti_modifiers]
    by_cases hl : s.length < 4
    · rw [if_pos hl]
      exact ⟨hv1, hv2, ha1, ha2⟩
    · rw [if_neg hl]
      rcases hd : (pyUpper s).data with _ | ⟨c0, _ | ⟨c1, _ | ⟨c2, rest⟩⟩⟩
      · exact ⟨hv1, hv2, ha1, ha2⟩
      · exact ⟨hv1, hv2, ha1, ha2⟩
      · exact ⟨hv1, hv2, ha1, ha2⟩
      · simp only
        have hcv := clamp_mem (x := if c2 = 'F' then v * 1.20
          else if c2 = 'T' then v * 0.80 else v) (by norm_num : (-1 : ℚ) ≤ 1)
        have hca := clamp_mem (x := if c0 = 'E' then a * 1.15
          else if c0 = 'I' then a * 0.85 else a) (by norm_num : (0 : ℚ) ≤ 1)
        exact ⟨hcv.1, hcv.2, hca.1, hca.2⟩

/-- C9: every `EmotionState` produced by `label_to_circumplex` (for any
label string and any MBTI string) or by `apply_inertia` (for any previous
and new states, including coordinates at or outside the domain boundaries,
and any familiarity) has valence in [-1, 1], arousal in [0, 1], a label
from the 21-entry canonical table, and intensity in {low, mid, high}. -/
theorem C9_outputs_well_formed :
    (∀ (label : String) (mbti : Option String),
      -1 ≤ (label_to_circumplex label mbti).valence ∧
      (label_to_circumplex label mbti).valence ≤ 1 ∧
      0 ≤ (label_to_circumplex label mbti).arousal ∧
      (label_to_circumplex label mbti).arousal ≤ 1 ∧
      (label_to_circumplex label mbti).label ∈ EMOTION_LABELS ∧
      (label_to_circumplex label mbti).intensity ∈ INTENSITY_LEVELS) ∧
    (∀ (prev new : EmotionState) (f : ℤ),
      -1 ≤ (apply_inertia prev new f).valence ∧
      (apply_inertia prev new f).valence ≤ 1 ∧
      0 ≤ (apply_inertia prev new f).arousal ∧
      (apply_inertia prev new f).arousal ≤ 1 ∧
      (apply_inertia prev new f).label ∈ EMOTION_LABELS ∧
      (apply_inertia prev new f).intensity ∈ INTENSITY_LEVELS) := by
  constructor
  · intro label mbti
    have hp : -1 ≤ ((lookupTable EMOTION_MAP label).getD (0, 0.2)).1 ∧
        ((lookupTable EMOTION_MAP label).getD (0, 0.2)).1 ≤ 1 ∧
        0 ≤ ((lookupTable EMOTION_MAP label).getD (0, 0.2)).2 ∧
        ((lookupTable EMOTION_MAP label).getD (0, 0.2)).2 ≤ 1 := by
      rcases hlk : lookupTable EMOTION_MAP label with _ | v
      · simp only [Option.getD_none]
        norm_num
      · simp only [Option.getD_some]
        exact emotion_map_bounds (label, v) (lookupTable_mem _ _ _ hlk)
    have hm := mbti_modifiers_bounds mbti hp.1 hp.2.1 hp.2.2.1 hp.2.2.2
    have hrv := pyRound3_mem_pm1 hm.1 hm.2.1
    have hra := pyRound3_mem_01 hm.2.2.1 hm.2.2.2
    simp only [label_to_circumplex]
    exact ⟨hrv.1, hrv.2, hra.1, hra.2, nearest_label_mem _ _, intensity_mem _⟩
  · intro prev new f
    have hcv := clamp_mem
      (x := prev.valence * (_inertia_weights prev f).1 +
            new.valence * (_inertia_weights prev f).2) (by norm_num : (-1 : ℚ) ≤ 1)
    have hca := clamp_mem
      (x := prev.arousal * (_inertia_weights prev f).1 +
            new.arousal * (_inertia_weights prev f).2) (by norm_num : (0 : ℚ) ≤ 1)
    have hrv := pyRound3_mem_pm1 hcv.1 hcv.2
    have hra := pyRound3_mem_01 hca.1 hca.2
    simp only [apply_inertia]
    exact ⟨hrv.1, hrv.2, hra.1, hra.2, nearest_label_mem _ _, intensity_mem _⟩

/-! ## Claim C10 -/

lemma pyStrip_all_space {text : String} (h : ∀ c ∈ text.data, pyIsSpace c = true) :
    pyStrip text = "" := by
  rw [pyStrip]
  have h1 : text.data.dropWhile pyIsSpace = [] :=
    List.dropWhile_eq_nil_iff.mpr h
  rw [h1]
  rfl

/-- C10: a non-empty whitespace-only output transcription with the
interaction-pending flag set still reclassifies the current emotion and
clears the flag, but appends no transcript entry and emits no text frame. -/
theorem C10_whitespace_transcript_consumes_flag (st : OrchestratorState) (text : String)
    (hne : text ≠ "") (hws : ∀ c ∈ text.data, pyIsSpace c = true)
    (hflag : st.user_interacted_since_last_emotion = true) :
    (handleOutputTranscription st text).1.current_emotion =
      classify_to_circumplex text st.relationship_type st.familiarity_level
        st.mbti (some st.current_emotion) ∧
    (handleOutputTranscription st text).1.user_interacted_since_last_emotion = false ∧
    (handleOutputTranscription st text).1.transcript_buffer = st.transcript_buffer ∧
    (handleOutputTranscription st text).2 = [] := by
  have hstrip := pyStrip_all_space hws
  rw [handleOutputTranscription, if_neg hne]
  simp [hflag, hstrip]

/-- C10 witness: a single-space transcription in a fresh session. -/
theorem C10_whitespace_transcript_witness :
    (handleOutputTranscription (initOrchestratorState none 5 none) " ").1.current_emotion =
      classify_to_circumplex " " (initOrchestratorState none 5 none).relationship_type
        (initOrchestratorState none 5 none).familiarity_level
        (initOrchestratorState none 5 none).mbti
        (some (initOrchestratorState none 5 none).current_emotion) ∧
    (handleOutputTranscription (initOrchestratorState none 5 none)
        " ").1.user_interacted_since_last_emotion = false ∧
    (handleOutputTranscription (initOrchestratorState none 5 none) " ").1.transcript_buffer =
      (initOrchestratorState none 5 none).transcript_buffer ∧
    (handleOutputTranscription (initOrchestratorState none 5 none) " ").2 = [] :=
  C10_whitespace_transcript_consumes_flag (initOrchestratorState none 5 none) " "
    (by decide) (by decide) rfl

/-! ## Claim C4 -/

lemma handleOutputTranscription_burst_count (st : OrchestratorState) (text : String) :
    (handleOutputTranscription st text).1.burst_count = st.burst_count := by
  by_cases h1 : text = ""
  · simp [handleOutputTranscription, h1]
  · by_cases h2 : st.user_interacted_since_last_emotion <;>
      by_cases h3 : pyStrip text ≠ "" <;>
        simp [handleOutputTranscription, h1, h2, h3]

/-- Invariant tying burst firings to counter zeroings: the number of
follow-ups fired never exceeds 3 per zeroing (plus the headroom left in the
current counter). -/
def burstInv (r : SessionRun) : Prop :=
  r.bursts ≤ 3 * r.resets + r.st.burst_count ∧ r.st.burst_count ≤ 3

lemma sessStep_burstInv {r : SessionRun} (e : SessEvent) (h : burstInv r) :
    burstInv (sessStep r e) := by
  rcases h with ⟨h1, h2⟩
  rw [sessStep.eq_def]
  by_cases hh : r.halted = true
  · rw [if_pos hh]
    exact ⟨h1, h2⟩
  · rw [if_neg hh]
    cases e with
    | userFrame =>
      refine ⟨?_, ?_⟩ <;> simp <;> omega
    | outputTranscript text =>
      refine ⟨?_, ?_⟩ <;> simp [handleOutputTranscription_burst_count] <;> omega
    | turnBoundaryEvt ok now =>
      dsimp only
      rw [turnBoundary.eq_def]
      by_cases hr : r.st.running = false
      · rw [if_pos hr]
        exact ⟨h1, h2⟩
      · rw [if_neg hr]
        by_cases hok : ok = false
        · rw [if_pos hok]
          exact ⟨h1, h2⟩
        · rw [if_neg hok]
          rw [evalEmotionalBurst.eq_def]
          by_cases hc : BURST_AROUSAL_THRESHOLD ≤ r.st.current_emotion.arousal ∧
              r.st.burst_count < BURST_MAX_FOLLOW_UPS ∧ r.st.burst_cooldown_until ≤ now
          · rw [if_pos hc]
            have hlt : r.st.burst_count < 3 := hc.2.1
            refine ⟨?_, ?_⟩ <;> simp <;> omega
          · rw [if_neg hc]
            by_cases hp : r.st.burst_count > 0
            · rw [if_pos hp]
              refine ⟨?_, ?_⟩ <;> simp <;> omega
            · rw [if_neg hp]
              refine ⟨?_, ?_⟩ <;> simp <;> omega

/-- C4 (amended): along any session trace, the burst follow-up fires at
most 3 times per counter zeroing: `bursts ≤ 3 + 3 * resets`, where a
zeroing is an inbound user audio/text frame (which zeroes the counter with
no cooldown) or the cooldown-starting branch of the burst rule.  In
particular at most 3 bursts fire with no zeroing at all — but no period of
sub-threshold arousal is ever required (see the counterexample). -/
theorem C4_burst_bound (rt : Option String) (fam : ℤ) (mbti : Option String)
    (events : List SessEvent) :
    (runSession (initOrchestratorState rt fam mbti) events).bursts ≤
      3 + 3 * (runSession (initOrchestratorState rt fam mbti) events).resets := by
  have h : ∀ (l : List SessEvent) (r : SessionRun), burstInv r →
      burstInv (l.foldl sessStep r) := by
    intro l
    induction l with
    | nil => intro r hr; exact hr
    | cons e rest ih => intro r hr; exact ih _ (sessStep_burstInv e hr)
  have hfin := h events ⟨initOrchestratorState rt fam mbti, false, 0, 0⟩
    (by constructor <;> simp [initOrchestratorState])
  rw [runSession]
  rcases hfin with ⟨hA, hB⟩
  omega

/-- C4 counterexample: a session seeded from a persisted high-arousal
emotion (0.8, 0.9, "excited", "high").  Three turn boundaries at t = 0, 1,
2 fire three bursts; one user audio frame zeroes the counter; the boundary
at t = 3 fires a fourth burst.  Arousal is 0.9 ≥ 0.7 for the whole run and
the run spans 3 seconds, so no ≥ 30 s sub-threshold period ever occurred —
yet 4 bursts fired. -/
theorem C4_fourth_burst_counterexample :
    (runSession
      { initOrchestratorState (some "Rival") 5 none with
        current_emotion := seedEmotionFromHistory "excited" 0.8 0.9 "high" }
      [SessEvent.turnBoundaryEvt true 0, SessEvent.turnBoundaryEvt true 1,
       SessEvent.turnBoundaryEvt true 2, SessEvent.userFrame,
       SessEvent.turnBoundaryEvt true 3]).bursts = 4 ∧
    (runSession
      { initOrchestratorState (some "Rival") 5 none with
        current_emotion := seedEmotionFromHistory "excited" 0.8 0.9 "high" }
      [SessEvent.turnBoundaryEvt true 0, SessEvent.turnBoundaryEvt true 1,
       SessEvent.turnBoundaryEvt true 2, SessEvent.userFrame,
       SessEvent.turnBoundaryEvt true 3]).st.current_emotion.arousal = 0.9 ∧
    BURST_AROUSAL_THRESHOLD ≤ (0.9 : ℚ) ∧ ((3 : ℚ) - 0 < BURST_COOLDOWN_SECONDS) := by
  refine ⟨?_, ?_, ?_, ?_⟩ <;>
    norm_num +decide [runSession, sessStep, turnBoundary, evalEmotionalBurst,
      initOrchestratorState, seedEmotionFromHistory, seedEmotionFromRelationship,
      lookupTable, RELATIONSHIP_DEFAULT_EMOTIONS, initialSessionEmotion,
      BURST_AROUSAL_THRESHOLD, BURST_MAX_FOLLOW_UPS, BURST_COOLDOWN_SECONDS,
      BURST_FOLLOW_UP_PROMPTS]
